import Mathlib

/-!
# pocl: enqueue of an image-to-buffer copy, file utilities, compiler state, debug timing

A shallow embedding of four translation units of the pocl host library and
the properties proved of them:

* `lib/CL/clEnqueueCopyImageToBuffer.c`
* `lib/CL/pocl_file_util.c`
* `lib/CL/pocl_llvm_utils.cc`
* `lib/CL/pocl_debug.c`

Pointers are natural numbers (`0` is `NULL`) into per-type heaps.  A function
whose C text dereferences a pointer that does not point to an object has no
defined result; such a run is `none`.
-/

namespace Pocl

/-! ## Common types -/

/-- A C pointer: an address, with `0` standing for `NULL`. -/
abbrev Ptr := Nat

/-- The null pointer. -/
def NULL : Ptr := 0

/-- The OpenCL `cl_int` status type. -/
abbrev cl_int := Int

/-- The value of `CL_SUCCESS` in the OpenCL headers. -/
def CL_SUCCESS : cl_int := 0

/-- The value of `CL_INVALID_MEM_OBJECT` in the OpenCL headers. -/
def CL_INVALID_MEM_OBJECT : cl_int := -38

/-- The value of `CL_TRUE` in the OpenCL headers. -/
def CL_TRUE : Nat := 1

/-- The value of `CL_FALSE` in the OpenCL headers. -/
def CL_FALSE : Nat := 0

/-- The value of `CL_COMMAND_COPY_IMAGE_TO_BUFFER` in the OpenCL headers (0x11FA). -/
def CL_COMMAND_COPY_IMAGE_TO_BUFFER : Nat := 4602

/-- A `size_t[3]` array: the elements at index 0, 1 and 2. -/
abbrev Size3 := Nat × Nat × Nat

/-! ## lib/CL/clEnqueueCopyImageToBuffer.c -/

/-- The field of `struct _cl_device_id` the enqueue reads. -/
structure _cl_device_id where
  dev_id : Nat
  deriving DecidableEq, Repr

/-- The field of `struct _cl_command_queue` the enqueue reads. -/
structure _cl_command_queue where
  device : Ptr
  deriving DecidableEq, Repr

/-- The fields of `struct _cl_mem` the enqueue reads or writes.  The array
`device_ptrs` is not stored: the enqueue only takes the address of one of its
elements, which is a `mem_id_ref`. -/
structure _cl_mem where
  pocl_refcount : Int
  owning_device : Ptr
  deriving DecidableEq, Repr

/-- The address `&m->device_ptrs[idx]`: the per-device entry of memory object
`obj` at index `idx`. -/
structure mem_id_ref where
  obj : Ptr
  idx : Nat
  deriving DecidableEq, Repr

/-- The member `read_image` of the union `command` of a command node. -/
structure read_image_cmd where
  src_mem_id : Option mem_id_ref
  dst_host_ptr : Ptr
  dst_mem_id : Option mem_id_ref
  origin : Size3
  region : Size3
  dst_row_pitch : Nat
  dst_slice_pitch : Nat
  dst_offset : Nat
  deriving DecidableEq, Repr

/-- A command node: the `read_image` payload the enqueue fills in, and `rest`
for every other field, which the enqueue does not touch. -/
structure _cl_command_node where
  read_image : read_image_cmd
  rest : Nat
  deriving DecidableEq, Repr

/-- The heaps the enqueue works on. -/
structure World where
  mems : Ptr → Option _cl_mem
  queues : Ptr → Option _cl_command_queue
  devices : Ptr → Option _cl_device_id
  nodes : Ptr → Option _cl_command_node

/-- The seventeen arguments of `pocl_rect_copy`, less the out-parameter `cmd`,
which is part of its result.  An array argument is `none` for a null pointer
and the array contents otherwise. -/
structure RectCopyArgs where
  command_queue : Ptr
  command_type : Nat
  src : Ptr
  src_is_image : Nat
  dst : Ptr
  dst_is_image : Nat
  src_origin : Option Size3
  dst_origin : Option Size3
  region : Option Size3
  src_row_pitch : Nat
  src_slice_pitch : Nat
  dst_row_pitch : Nat
  dst_slice_pitch : Nat
  num_events_in_wait_list : Nat
  event_wait_list : Ptr
  event : Ptr
  deriving DecidableEq, Repr

/-- The arguments of `clEnqueueCopyImageToBuffer`. -/
structure CopyArgs where
  command_queue : Ptr
  src_image : Ptr
  dst_buffer : Ptr
  src_origin : Option Size3
  region : Option Size3
  dst_offset : Nat
  num_events_in_wait_list : Nat
  event_wait_list : Ptr
  event : Ptr
  deriving DecidableEq, Repr

/-- The calls the enqueue makes into the rest of the library, in order. -/
inductive Call where
  | pocl_rect_copy (a : RectCopyArgs)
  | clRetainMemObject (memobj : Ptr)
  | pocl_command_enqueue (command_queue : Ptr) (cmd : Ptr)
  deriving DecidableEq, Repr

/-- The two engine functions the enqueue calls whose text is not part of the
sources at hand.  `pocl_rect_copy` yields its status, the node pointer it
stores through `cmd`, and the heaps it leaves; `pocl_command_enqueue` yields
the heaps it leaves. -/
structure Engine where
  pocl_rect_copy : RectCopyArgs → World → cl_int × Ptr × World
  pocl_command_enqueue : Ptr → Ptr → World → World

/-- Dereference of a memory-object pointer. -/
def World.mem (w : World) (p : Ptr) : Option _cl_mem :=
  if p = NULL then none else w.mems p

/-- Dereference of a command-queue pointer. -/
def World.queue (w : World) (p : Ptr) : Option _cl_command_queue :=
  if p = NULL then none else w.queues p

/-- Dereference of a device pointer. -/
def World.dev (w : World) (p : Ptr) : Option _cl_device_id :=
  if p = NULL then none else w.devices p

/-- Dereference of a command-node pointer. -/
def World.node (w : World) (p : Ptr) : Option _cl_command_node :=
  if p = NULL then none else w.nodes p

/-- The reference count of the object at `p`, when there is one. -/
def World.refcount (w : World) (p : Ptr) : Option Int :=
  (w.mem p).map (fun m => m.pocl_refcount)

/-- The owning device of the object at `p`, when there is one. -/
def World.owner (w : World) (p : Ptr) : Option Ptr :=
  (w.mem p).map (fun m => m.owning_device)

/-- Modelled from the spec: `clRetainMemObject` is defined in a file that is
not among the sources.  The spec has a memory object "retained by every
Command Node that references it", with `retain` raising the reference count;
a retain is one increment of `pocl_refcount`.  On a pointer that is not a
memory object the call reports an error, which the enqueue ignores, and
changes nothing. -/
def clRetainMemObject (memobj : Ptr) (w : World) : World :=
  match w.mem memobj with
  | none => w
  | some m =>
    { w with mems := Function.update w.mems memobj
                        (some { m with pocl_refcount := m.pocl_refcount + 1 }) }

/-- The assignment `m->owning_device = dev`; undefined when `m` is not a
memory object. -/
def set_owning_device (m : Ptr) (dev : Ptr) (w : World) : Option World :=
  match w.mem m with
  | none => none
  | some o =>
    some { w with mems := Function.update w.mems m (some { o with owning_device := dev }) }

/-- The arguments `clEnqueueCopyImageToBuffer` passes to `pocl_rect_copy`
(lines 18 and 22 to 32). -/
def rect_copy_args (a : CopyArgs) : RectCopyArgs :=
  { command_queue := a.command_queue
    command_type := CL_COMMAND_COPY_IMAGE_TO_BUFFER
    src := a.src_image
    src_is_image := CL_TRUE
    dst := a.dst_buffer
    dst_is_image := CL_FALSE
    src_origin := a.src_origin
    dst_origin := some (a.dst_offset, 0, 0)
    region := a.region
    src_row_pitch := 0
    src_slice_pitch := 0
    dst_row_pitch := 0
    dst_slice_pitch := 0
    num_events_in_wait_list := a.num_events_in_wait_list
    event_wait_list := a.event_wait_list
    event := a.event }

/-- The function `clEnqueueCopyImageToBuffer`: the status returned, the heaps
left, and the calls made, in order.  `none` is a run that dereferences a
pointer to no object. -/
def clEnqueueCopyImageToBuffer (eng : Engine) (a : CopyArgs) (w : World) :
    Option (cl_int × World × List Call) :=
  if a.src_image = NULL then
    some (CL_INVALID_MEM_OBJECT, w, [])
  else
    let r := eng.pocl_rect_copy (rect_copy_args a) w
    let err := r.1
    let cmd := r.2.1
    let w1 := r.2.2
    if err ≠ CL_SUCCESS then
      some (err, w1, [Call.pocl_rect_copy (rect_copy_args a)])
    else
      match w1.queue a.command_queue with
      | none => none
      | some q =>
      let dev := q.device
      match w1.dev dev, w1.node cmd, w1.mem a.src_image, w1.mem a.dst_buffer,
            a.src_origin, a.region with
      | some d, some n, some _, some _, some so, some rg =>
        let payload : read_image_cmd :=
          { src_mem_id := some { obj := a.src_image, idx := d.dev_id }
            dst_host_ptr := NULL
            dst_mem_id := some { obj := a.dst_buffer, idx := d.dev_id }
            origin := (so.1, so.2.1, so.2.2)
            region := (rg.1, rg.2.1, rg.2.2)
            dst_row_pitch := 0
            dst_slice_pitch := 0
            dst_offset := a.dst_offset }
        let w2 : World :=
          { w1 with nodes := Function.update w1.nodes cmd (some { n with read_image := payload }) }
        let w3 := clRetainMemObject a.src_image w2
        match set_owning_device a.src_image dev w3 with
        | none => none
        | some w4 =>
        let w5 := clRetainMemObject a.dst_buffer w4
        match set_owning_device a.dst_buffer dev w5 with
        | none => none
        | some w6 =>
          some (CL_SUCCESS, eng.pocl_command_enqueue a.command_queue cmd w6,
                [Call.pocl_rect_copy (rect_copy_args a),
                 Call.clRetainMemObject a.src_image,
                 Call.clRetainMemObject a.dst_buffer,
                 Call.pocl_command_enqueue a.command_queue cmd])
      | _, _, _, _, _, _ => none

/-! ### A concrete run of the enqueue -/

/-- Example heaps: an image at address 10 and a buffer at address 11, each
with reference count 1 and owned by the device at 31; a queue at 20 bound to
the device at 30, whose `dev_id` is 2; no command node yet. -/
def exWorld : World :=
  { mems := fun p =>
      if p = 10 then some { pocl_refcount := 1, owning_device := 31 }
      else if p = 11 then some { pocl_refcount := 1, owning_device := 31 }
      else none
    queues := fun p => if p = 20 then some { device := 30 } else none
    devices := fun p =>
      if p = 30 then some { dev_id := 2 }
      else if p = 31 then some { dev_id := 3 }
      else none
    nodes := fun _ => none }

/-- A blank command node. -/
def exNode : _cl_command_node :=
  { read_image :=
      { src_mem_id := none, dst_host_ptr := NULL, dst_mem_id := none, origin := (0, 0, 0),
        region := (0, 0, 0), dst_row_pitch := 0, dst_slice_pitch := 0, dst_offset := 0 }
    rest := 0 }

/-- An example engine: `pocl_rect_copy` succeeds with a blank node at address
40 and touches nothing else; `pocl_command_enqueue` leaves the heaps alone. -/
def exEngine : Engine :=
  { pocl_rect_copy := fun _ w =>
      (CL_SUCCESS, 40, { w with nodes := Function.update w.nodes 40 (some exNode) })
    pocl_command_enqueue := fun _ _ w => w }

/-- An example engine whose `pocl_rect_copy` fails with
`CL_MEM_OBJECT_ALLOCATION_FAILURE` (-4), stores no node and touches nothing. -/
def exFailingEngine : Engine :=
  { pocl_rect_copy := fun _ w => (-4, NULL, w)
    pocl_command_enqueue := fun _ _ w => w }

/-- Example arguments: image 10 to buffer 11 on queue 20. -/
def exArgs : CopyArgs :=
  { command_queue := 20
    src_image := 10
    dst_buffer := 11
    src_origin := some (1, 2, 3)
    region := some (4, 5, 6)
    dst_offset := 7
    num_events_in_wait_list := 0
    event_wait_list := NULL
    event := NULL }

/-- Example arguments with a null source image. -/
def exArgsNull : CopyArgs :=
  { exArgs with src_image := NULL }

/-- What the example run returns. -/
def exOutcome : cl_int × World × List Call :=
  (clEnqueueCopyImageToBuffer exEngine exArgs exWorld).getD (CL_SUCCESS, exWorld, [])

/-! ## lib/CL/pocl_file_util.c

The C library and the file system are the environment of this file.  The
file system is a finite map from path names to regular files and
directories; nothing but the modelled calls modifies it, every entry is
readable and writable, and no call fails for lack of space or memory. -/

/-- A byte of file content. -/
abbrev Byte := Nat

/-- A path name: the characters of the C string, without the terminator. -/
abbrev Path := List Char

/-- What a path names: a regular file with its bytes, or a directory. -/
inductive Node where
  | file (content : List Byte)
  | dir
  deriving DecidableEq, Repr

/-- The file system: the entries by path name; the first entry of a name counts. -/
abbrev FS := List (Path × Node)

/-- The entry at `p`, when there is one. -/
def FS.find : FS → Path → Option Node
  | [], _ => none
  | (q, n) :: rest, p => if q = p then some n else FS.find rest p

/-- The file system without any entry at `p`. -/
def FS.erase : FS → Path → FS
  | [], _ => []
  | (q, n) :: rest, p => if q = p then FS.erase rest p else (q, n) :: FS.erase rest p

/-- The file system with the entry at `p` set to `n`. -/
def FS.put (fs : FS) (p : Path) (n : Node) : FS :=
  (p, n) :: FS.erase fs p

/-- The C function `strrchr`, as the offset of the last `c` in `s`; `none`
for the null pointer it returns when `c` does not occur. -/
def strrchr : List Char → Char → Option Nat
  | [], _ => none
  | x :: xs, c =>
    match strrchr xs c with
    | some i => some (i + 1)
    | none => if x = c then some 0 else none

/-- Whether the directory that is to hold `p` exists: the prefix before the
last slash is a directory.  A name without a slash is relative to the working
directory and a name whose only slash is the first one lies in the root;
both directories exist. -/
def FS.parent_ok (fs : FS) (p : Path) : Bool :=
  match strrchr p '/' with
  | none => true
  | some 0 => true
  | some i => decide (FS.find fs (p.take i) = some Node.dir)

/-- Whether some entry lies beneath the directory `p`. -/
def FS.has_children (fs : FS) (p : Path) : Bool :=
  fs.any (fun e => (p ++ ['/']).isPrefixOf e.1)

/-- The C library call `access (path, R_OK)`: 0 when the path exists, -1 otherwise. -/
def access_R_OK (fs : FS) (path : Path) : Int :=
  match FS.find fs path with
  | some _ => 0
  | none => -1

/-- The C library call `remove`: unlinks a regular file or removes an empty
directory and returns 0; returns -1 and changes nothing on a missing path or
a directory that is not empty. -/
def remove (fs : FS) (path : Path) : Int × FS :=
  match FS.find fs path with
  | none => (-1, fs)
  | some (Node.file _) => (0, FS.erase fs path)
  | some Node.dir => if FS.has_children fs path then (-1, fs) else (0, FS.erase fs path)

/-- The modes in which this file opens streams. -/
inductive Mode where
  | r
  | w
  | a
  deriving DecidableEq, Repr

/-- An open stream: the file it is on. -/
structure FILE where
  path : Path
  deriving DecidableEq, Repr

/-- The C library call `fopen`; `none` is the null pointer.  Mode `r` opens
an existing regular file.  Mode `w` truncates a regular file or creates an
empty one; mode `a` keeps a regular file as it is or creates an empty one.
A file is created only in an existing directory, and a directory cannot be
opened. -/
def fopen (fs : FS) (path : Path) (mode : Mode) : Option FILE × FS :=
  match FS.find fs path, mode with
  | some Node.dir, _ => (none, fs)
  | some (Node.file _), Mode.r => (some { path := path }, fs)
  | some (Node.file _), Mode.a => (some { path := path }, fs)
  | some (Node.file _), Mode.w => (some { path := path }, FS.put fs path (Node.file []))
  | none, Mode.r => (none, fs)
  | none, _ =>
    if FS.parent_ok fs path then (some { path := path }, FS.put fs path (Node.file []))
    else (none, fs)

/-- The C library call `fwrite (content, 1, count, f)` on a stream opened in
mode `w` or `a`: the first `count` bytes of `content` go to the end of the
file; the number of bytes written is returned. -/
def fwrite (fs : FS) (content : List Byte) (count : Nat) (f : FILE) : Nat × FS :=
  match FS.find fs f.path with
  | some (Node.file old) => (count, FS.put fs f.path (Node.file (old ++ content.take count)))
  | _ => (0, fs)

/-- The C library call `fclose`. -/
def fclose (fs : FS) (_f : FILE) : Int × FS := (0, fs)

/-- The C library calls `fseek (f, 0, SEEK_END)` then `ftell (f)`: the size of the file. -/
def ftell_end (fs : FS) (f : FILE) : Nat :=
  match FS.find fs f.path with
  | some (Node.file c) => c.length
  | _ => 0

/-- The C library call `fread (buf, 1, n, f)` on a stream just opened in mode
`r`: the bytes read, at most `n`, from the start of the file. -/
def fread (fs : FS) (n : Nat) (f : FILE) : List Byte :=
  match FS.find fs f.path with
  | some (Node.file c) => c.take n
  | _ => []

/-- The function `pocl_remove`. -/
def pocl_remove (fs : FS) (path : Path) : Int × FS :=
  remove fs path

/-- The function `pocl_exists`: `!access (path, R_OK)`. -/
def pocl_exists (fs : FS) (path : Path) : Int :=
  if access_R_OK fs path = 0 then 1 else 0

/-- The function `pocl_filesize`: the status and, on success, the value stored in `*res`. -/
def pocl_filesize (fs : FS) (path : Path) : Int × Option Nat :=
  match (fopen fs path Mode.r).1 with
  | none => (-1, none)
  | some f => (0, some (ftell_end fs f))

/-- What `pocl_read_file` leaves: the status, the buffer stored in `*content`
(`none` is `NULL`) and the value of `*filesize`. -/
structure ReadResult where
  errcode : Int
  content : Option (List Byte)
  filesize : Nat
  deriving DecidableEq, Repr

/-- The function `pocl_read_file`.  `filesize0` is what `*filesize` holds on
entry.  The buffer has `fsize + 1` bytes: the bytes read, a terminator at
offset `rsize`, and the bytes after it. -/
def pocl_read_file (fs : FS) (path : Path) (filesize0 : Nat) : ReadResult :=
  let r := pocl_filesize fs path
  let errcode := r.1
  let filesize := r.2.getD filesize0
  let fsize := filesize
  if errcode = 0 then
    match (fopen fs path Mode.r).1 with
    | none => { errcode := -1, content := none, filesize := filesize }
    | some f =>
      let data := fread fs fsize f
      let rsize := data.length
      let buf := data ++ 0 :: List.replicate (fsize - rsize) 0
      if rsize < fsize then
        { errcode := -1, content := some buf, filesize := filesize }
      else if (fclose fs f).1 ≠ 0 then
        { errcode := -1, content := some buf, filesize := filesize }
      else
        { errcode := errcode, content := some buf, filesize := filesize }
  else
    { errcode := errcode, content := none, filesize := filesize }

/-- Lines 186 to 198 of `pocl_write_file`: open the stream, write, close. -/
def pocl_write_file_stream (fs : FS) (path : Path) (content : List Byte) (count : Nat)
    (append : Int) : Int × FS :=
  let o := if append ≠ 0 then fopen fs path Mode.a else fopen fs path Mode.w
  match o.1 with
  | none => (-1, o.2)
  | some f =>
    let wr := fwrite o.2 content count f
    if wr.1 < count then (-1, wr.2)
    else fclose wr.2 f

/-- The function `pocl_write_file`: the status returned and the file system left. -/
def pocl_write_file (fs : FS) (path : Path) (content : List Byte) (count : Nat)
    (append : Int) (dont_rewrite : Int) : Int × FS :=
  if pocl_exists fs path ≠ 0 then
    if dont_rewrite ≠ 0 then
      if append = 0 then (0, fs)
      else pocl_write_file_stream fs path content count append
    else
      let rm := pocl_remove fs path
      if rm.1 ≠ 0 then (rm.1, rm.2)
      else pocl_write_file_stream rm.2 path content count append
  else
    pocl_write_file_stream fs path content count append

/-! ## lib/CL/pocl_llvm_utils.cc -/

/-- What the compiler layer does that is visible from outside the modelled
functions, in order: lock operations, messages, and calls into LLVM and into
other files of the library. -/
inductive LLVMCall where
  | POCL_LOCK_kernelCompilerLock
  | POCL_UNLOCK_kernelCompilerLock
  | POCL_MSG_PRINT_LLVM (msg : String)
  | clearKernelPasses
  | clearTargetMachines
  | cleanKernelLibrary
  | new_LLVMContext (p : Ptr)
  | delete_LLVMContext (p : Ptr)
  | InitializeAllTargets
  | InitializeAllTargetMCs
  | InitializeAllAsmPrinters
  | InitializeAllAsmParsers
  | initializeCore
  | initializeScalarOpts
  | initializeVectorization
  | initializeIPO
  | initializeAnalysis
  | initializeIPA
  | initializeTransformUtils
  | initializeInstCombine
  | initializeInstrumentation
  | initializeTarget
  | addOccurrence (option : String) (value : String)
  deriving DecidableEq, Repr

/-- The file-scope variables of `pocl_llvm_utils.cc`, and the calls made so far. -/
structure LLVMState where
  globalContext : Ptr
  LLVMInitialized : Bool
  numberOfIRs : Int
  currentWgMethod : String
  calls : List LLVMCall
  deriving DecidableEq, Repr

/-- What `InitializeLLVM` reads from outside: the configuration lookups, the
LLVM options that are registered, and the build-time version switch. -/
structure LLVMEnv where
  pocl_get_string_option : String → String → String
  pocl_get_bool_option : String → Int → Int
  registered : String → Bool
  LLVM_OLDER_THAN_3_8 : Bool

/-- Record a call. -/
def LLVMState.call (s : LLVMState) (c : LLVMCall) : LLVMState :=
  { s with calls := s.calls ++ [c] }

/-- The function `GlobalContext`; `fresh` is the address `new LLVMContext ()`
returns when it is evaluated.  The result is the address of the context
returned by reference. -/
def GlobalContext (fresh : Ptr) (s : LLVMState) : Ptr × LLVMState :=
  if s.globalContext = NULL then
    let s1 := { s.call (LLVMCall.new_LLVMContext fresh) with globalContext := fresh }
    (s1.globalContext, s1)
  else
    (s.globalContext, s)

/-- The constructor of `PoclCompilerMutexGuard`. -/
def PoclCompilerMutexGuard.ctor (s : LLVMState) : LLVMState :=
  s.call LLVMCall.POCL_LOCK_kernelCompilerLock

/-- The destructor of `PoclCompilerMutexGuard`. -/
def PoclCompilerMutexGuard.dtor (s : LLVMState) : LLVMState :=
  s.call LLVMCall.POCL_UNLOCK_kernelCompilerLock

/-- The statements `O = opts[name]; assert (O && ...); O->addOccurrence (1,
name, value, false);` of `InitializeLLVM`; `none` when the option is not
registered. -/
def setOption (env : LLVMEnv) (name value : String) (s : LLVMState) : Option LLVMState :=
  if env.registered name then some (s.call (LLVMCall.addOccurrence name value)) else none

/-- Lines 209 to 227 of `InitializeLLVM`: the global LLVM initialisation calls. -/
def initializeCalls (env : LLVMEnv) : List LLVMCall :=
  [LLVMCall.InitializeAllTargets, LLVMCall.InitializeAllTargetMCs,
   LLVMCall.InitializeAllAsmPrinters, LLVMCall.InitializeAllAsmParsers,
   LLVMCall.initializeCore, LLVMCall.initializeScalarOpts,
   LLVMCall.initializeVectorization, LLVMCall.initializeIPO,
   LLVMCall.initializeAnalysis]
  ++ (if env.LLVM_OLDER_THAN_3_8 then [LLVMCall.initializeIPA] else [])
  ++ [LLVMCall.initializeTransformUtils, LLVMCall.initializeInstCombine,
      LLVMCall.initializeInstrumentation, LLVMCall.initializeTarget]

/-- Lines 259 to 275 of `InitializeLLVM`: the vectorizer remarks. -/
def setRemarks (env : LLVMEnv) (s : LLVMState) : Option LLVMState :=
  if env.pocl_get_bool_option "POCL_VECTORIZER_REMARKS" 0 = 1 then
    (setOption env "pass-remarks-missed" "loop-vectorize" s).bind fun s1 =>
    (setOption env "pass-remarks-analysis" "loop-vectorize" s1).bind fun s2 =>
    setOption env "pass-remarks" "loop-vectorize" s2
  else some s

/-- Lines 244 to 276 of `InitializeLLVM`: the options of the `loopvec` method. -/
def setLoopvec (env : LLVMEnv) (s : LLVMState) : Option LLVMState :=
  if s.currentWgMethod = "loopvec" then
    (setOption env "scalarize-load-store" "1" s).bind fun s1 =>
    (setOption env "vectorizer-min-trip-count" "2" s1).bind fun s2 =>
    setRemarks env s2
  else some s

/-- Lines 277 to 281 of `InitializeLLVM`: the debug option. -/
def setDebug (env : LLVMEnv) (s : LLVMState) : Option LLVMState :=
  if env.pocl_get_bool_option "POCL_DEBUG_LLVM_PASSES" 0 = 1 then
    setOption env "debug" "true" s
  else some s

/-- The function `InitializeLLVM`; `none` when an assertion on a registered
option fails. -/
def InitializeLLVM (env : LLVMEnv) (s : LLVMState) : Option LLVMState :=
  if s.LLVMInitialized then some s
  else
    let s1 := { s with calls := s.calls ++ initializeCalls env }
    let s2 := { s1 with
      currentWgMethod := env.pocl_get_string_option "POCL_WORK_GROUP_METHOD" "loopvec" }
    (setLoopvec env s2).bind fun s3 =>
    (setDebug env s3).bind fun s4 =>
    (setOption env "unroll-threshold" "1" s4).bind fun s5 =>
    some { s5 with LLVMInitialized := true }

/-- The function `pocl_llvm_release`; `none` when `assert (numberOfIRs >= 0)` fails. -/
def pocl_llvm_release (s : LLVMState) : Option LLVMState :=
  let s1 := PoclCompilerMutexGuard.ctor s
  if ¬ (s1.numberOfIRs ≥ 0) then none
  else if s1.numberOfIRs > 0 then
    let s2 := s1.call (LLVMCall.POCL_MSG_PRINT_LLVM
                "still have references to IRs - not releasing LLVM\n")
    some (PoclCompilerMutexGuard.dtor s2)
  else
    let s2 := s1.call (LLVMCall.POCL_MSG_PRINT_LLVM "releasing LLVM\n")
    let s3 := s2.call LLVMCall.clearKernelPasses
    let s4 := s3.call LLVMCall.clearTargetMachines
    let s5 := s4.call LLVMCall.cleanKernelLibrary
    let s6 := s5.call (LLVMCall.delete_LLVMContext s5.globalContext)
    let s7 := { s6 with globalContext := NULL }
    let s8 := { s7 with LLVMInitialized := false }
    some (PoclCompilerMutexGuard.dtor s8)

/-! ## lib/CL/pocl_debug.c -/

/-- The C type `struct timespec`. -/
structure timespec where
  tv_sec : Int
  tv_nsec : Int
  deriving DecidableEq, Repr

/-- A line printed by `POCL_MSG_PRINT2`: the function and line of the header,
the two numbers and the message of the format. -/
structure DebugLine where
  func : String
  line : Nat
  sec : Int
  nsec : Int
  msg : String
  deriving DecidableEq, Repr

/-- The state the timing functions work on: the flag `pocl_debug_messages`,
the `timespec` buffers by address, the successive readings of
`CLOCK_MONOTONIC_RAW` with the number of readings taken so far, and the lines
printed to the standard error stream. -/
structure DebugState where
  pocl_debug_messages : Int
  bufs : Ptr → Option timespec
  clock : Nat → timespec
  clock_reads : Nat
  printed : List DebugLine

/-- A value of the C type `long` (64 bits, two's complement). -/
def wrap_long (x : Int) : Int :=
  (x + 2 ^ 63) % 2 ^ 64 - 2 ^ 63

/-- The C library call `clock_gettime (CLOCK_MONOTONIC_RAW, tp)`: takes the
next reading of the clock and stores it in `*tp`. -/
def clock_gettime (tp : Ptr) (s : DebugState) : Option DebugState :=
  if tp = NULL then none
  else
    match s.bufs tp with
    | none => none
    | some _ =>
      some { s with bufs := Function.update s.bufs tp (some (s.clock s.clock_reads))
                    clock_reads := s.clock_reads + 1 }

/-- Dereference of a pointer to a `timespec`. -/
def DebugState.buf (s : DebugState) (p : Ptr) : Option timespec :=
  if p = NULL then none else s.bufs p

/-- The function `pocl_debug_measure_start`. -/
def pocl_debug_measure_start (start : Ptr) (s : DebugState) : Option DebugState :=
  if s.pocl_debug_messages = 0 then some s
  else clock_gettime start s

/-- The function `pocl_debug_measure_finish`. -/
def pocl_debug_measure_finish (start finish : Ptr) (msg func : String) (line : Nat)
    (s : DebugState) : Option DebugState :=
  if s.pocl_debug_messages = 0 then some s
  else
    (clock_gettime finish s).bind fun s1 =>
    (s1.buf finish).bind fun fin =>
    (s1.buf start).bind fun sta =>
    let nsec0 := wrap_long (fin.tv_nsec - sta.tv_nsec)
    let sec0 : Int := 0
    let sec1 := if nsec0 < 0 then wrap_long (sec0 - 1) else sec0
    let nsec1 := if nsec0 < 0 then wrap_long (nsec0 + 1000000000) else nsec0
    let sec2 := wrap_long (sec1 + wrap_long (fin.tv_sec - sta.tv_sec))
    some { s1 with printed := s1.printed ++
      [{ func := func, line := line, sec := sec2, nsec := nsec1, msg := msg }] }

/-! ### A concrete file system -/

/-- Example file system: the directory `/tmp` holding the regular file
`/tmp/f` with the two bytes 1 and 2. -/
def exFS : FS :=
  [("/tmp".toList, Node.dir), ("/tmp/f".toList, Node.file [1, 2])]

/-- Example path of a regular file. -/
def exPath : Path := "/tmp/f".toList

/-! ### Concrete states of the compiler layer and of the debug timing -/

/-- Example compiler state: a context at address 50, LLVM initialised, and
two programs with IRs. -/
def exLLVMBusy : LLVMState :=
  { globalContext := 50, LLVMInitialized := true, numberOfIRs := 2,
    currentWgMethod := "loopvec", calls := [] }

/-- Example compiler state: a context at address 50, LLVM initialised, and no
program with IRs. -/
def exLLVMIdle : LLVMState :=
  { exLLVMBusy with numberOfIRs := 0 }

/-- Example debug state with the messages disabled: one buffer at address 60
and one at 61, a clock that reads `n` seconds at its reading number `n`. -/
def exDebugOff : DebugState :=
  { pocl_debug_messages := 0
    bufs := fun p =>
      if p = 60 then some { tv_sec := 0, tv_nsec := 0 }
      else if p = 61 then some { tv_sec := 0, tv_nsec := 0 }
      else none
    clock := fun n => { tv_sec := n, tv_nsec := 0 }
    clock_reads := 0
    printed := [] }

/-- Example environment of the compiler layer: no configuration variable is
set, so that every lookup gives its default, every LLVM option is
registered, and LLVM is not older than 3.8. -/
def exLLVMEnv : LLVMEnv :=
  { pocl_get_string_option := fun _ d => d
    pocl_get_bool_option := fun _ d => d
    registered := fun _ => true
    LLVM_OLDER_THAN_3_8 := false }

/-- Example debug state with the messages enabled: the start buffer at
address 60 holds 5 s and 900000000 ns, the finish buffer at 61 is blank, and
the next reading of the clock is 7 s and 100000000 ns. -/
def exDebugOn : DebugState :=
  { pocl_debug_messages := 1
    bufs := fun p =>
      if p = 60 then some { tv_sec := 5, tv_nsec := 900000000 }
      else if p = 61 then some { tv_sec := 0, tv_nsec := 0 }
      else none
    clock := fun _ => { tv_sec := 7, tv_nsec := 100000000 }
    clock_reads := 0
    printed := [] }

/-! ## lib/CL/pocl_file_util.c: directories

`mkdir` resolves its path name the way the kernel does: repeated and
trailing slashes separate nothing, `.` stays in the directory reached, `..`
goes up, and every component before the last has to be a directory.  The
directories it creates are entered under their resolved name.  The working
directory is the root.  The calls on directory streams and `stat` take the
name as it is written. -/

/-- An open directory stream: the names that remain to be read. -/
structure DIR where
  entries : List (List Char)
  deriving DecidableEq, Repr

/-- The names of the entries that lie directly in the directory `p`. -/
def FS.children (fs : FS) (p : Path) : List (List Char) :=
  fs.filterMap fun e =>
    if (p ++ ['/']).isPrefixOf e.1 then
      if e.1.drop (p.length + 1) ≠ [] ∧ '/' ∉ e.1.drop (p.length + 1) then
        some (e.1.drop (p.length + 1))
      else none
    else none

/-- The C library call `opendir`; `none` is the null pointer, returned when
the path is not a directory of the file system.  The stream lists the
entries `.` and `..` first, then the entries of the directory as they were
when it was opened. -/
def opendir (fs : FS) (path : Path) : Option DIR :=
  match FS.find fs path with
  | some Node.dir => some { entries := ['.'] :: ['.', '.'] :: FS.children fs path }
  | _ => none

/-- The C library call `readdir`: the name of the next entry, or `none` for
the null pointer at the end of the stream, and the stream after the call. -/
def readdir (d : DIR) : Option (List Char) × DIR :=
  match d.entries with
  | [] => (none, d)
  | name :: rest => (some name, { entries := rest })

/-- The C library call `stat`: 0 when the path exists, -1 otherwise. -/
def stat (fs : FS) (path : Path) : Int :=
  match FS.find fs path with
  | some _ => 0
  | none => -1

/-- The loop `while (!error && p)` of `pocl_rm_rf` (lines 33 to 55), with the
values of `error`, `p` and the stream `d` on entry; `rm` is `pocl_rm_rf`
for the recursive call.  Each evaluation of the loop condition takes one
unit of `fuel`, and `none` is a run that is still going when the fuel is
spent.  On the entries `.` and `..` the `continue` goes back to the loop
condition with `p` and `d` as they are.  The store to `buf[len]`, one byte
past the `len` bytes allocated, is left out. -/
def pocl_rm_rf_loop (rm : FS → Path → Option (Int × FS)) (path : Path) :
    Nat → FS → Int → Option (List Char) → DIR → Option (Int × FS)
  | 0, _, _, _, _ => none
  | fuel + 1, fs, error, p, d =>
    if error ≠ 0 then some (error, fs)
    else
      match p with
      | none => some (error, fs)
      | some d_name =>
        if d_name = ['.'] ∨ d_name = ['.', '.'] then
          pocl_rm_rf_loop rm path fuel fs error p d
        else
          let buf := path ++ '/' :: d_name
          let r := if stat fs buf = 0 then rm fs buf else some (remove fs buf)
          match r with
          | none => none
          | some r1 =>
            let rd := readdir d
            pocl_rm_rf_loop rm path fuel r1.2 r1.1 rd.1 rd.2

/-- The function `pocl_rm_rf`: the value returned and the file system left.
Each call takes one unit of `fuel`, and `none` is a run that is still going
when the fuel is spent. -/
def pocl_rm_rf : Nat → FS → Path → Option (Int × FS)
  | 0, _, _ => none
  | fuel + 1, fs, path =>
    match opendir fs path with
    | none => some (-1, fs)
    | some d =>
      let rd := readdir d
      match pocl_rm_rf_loop (fun f p => pocl_rm_rf fuel f p) path fuel fs 0 rd.1 rd.2 with
      | none => none
      | some r =>
        if r.1 = 0 then some (r.1, (remove r.2 path).2) else some (r.1, r.2)

/-- Example tree: the directory `/d` holding the regular file `/d/f`. -/
def exTree : FS :=
  [("/d".toList, Node.dir), ("/d/f".toList, Node.file [1])]

/-! # Properties

## The enqueue of an image-to-buffer copy -/

theorem World.mem_ne_null {w : World} {p : Ptr} {m : _cl_mem} (h : w.mem p = some m) :
    p ≠ NULL := by
  intro h0; simp [World.mem, h0] at h

theorem World.mem_retain_same (w : World) (p : Ptr) (m : _cl_mem) (h : w.mem p = some m) :
    (clRetainMemObject p w).mem p = some { m with pocl_refcount := m.pocl_refcount + 1 } := by
  have hp : p ≠ NULL := World.mem_ne_null h
  unfold clRetainMemObject
  rw [h]
  simp [World.mem, hp]

theorem World.mem_retain_other (w : World) (p q : Ptr) (hq : q ≠ p) :
    (clRetainMemObject p w).mem q = w.mem q := by
  unfold clRetainMemObject
  cases h : w.mem p with
  | none => rfl
  | some m => simp [World.mem, Function.update_noteq hq]

theorem World.nodes_retain (w : World) (p : Ptr) :
    (clRetainMemObject p w).nodes = w.nodes := by
  unfold clRetainMemObject
  cases h : w.mem p <;> rfl

theorem set_owning_device_inv {w w1 : World} {p dev : Ptr}
    (h : set_owning_device p dev w = some w1) :
    ∃ m, w.mem p = some m ∧
      w1 = { w with mems := Function.update w.mems p (some { m with owning_device := dev }) } := by
  unfold set_owning_device at h
  cases hm : w.mem p with
  | none => simp [hm] at h
  | some m =>
    simp [hm] at h
    exact ⟨m, rfl, h.symm⟩

theorem World.mem_update_same (w : World) (p : Ptr) (v : _cl_mem) (hp : p ≠ NULL) :
    ({ w with mems := Function.update w.mems p (some v) } : World).mem p = some v := by
  simp [World.mem, hp]

theorem World.mem_update_other (w : World) (p q : Ptr) (v : _cl_mem) (hq : q ≠ p) :
    ({ w with mems := Function.update w.mems p (some v) } : World).mem q = w.mem q := by
  simp [World.mem, Function.update_noteq hq]

/-- The heaps handed to `pocl_command_enqueue` on the successful path, from
the heaps `pocl_rect_copy` left. -/
theorem enqueue_success_inv (eng : Engine) (a : CopyArgs) (w w1 : World) (calls : List Call)
    (h : clEnqueueCopyImageToBuffer eng a w = some (CL_SUCCESS, w1, calls)) :
    a.src_image ≠ NULL ∧ (eng.pocl_rect_copy (rect_copy_args a) w).1 = CL_SUCCESS ∧
    ∃ q d n so rg w2 w4 w6,
      (eng.pocl_rect_copy (rect_copy_args a) w).2.2.queue a.command_queue = some q ∧
      (eng.pocl_rect_copy (rect_copy_args a) w).2.2.dev q.device = some d ∧
      (eng.pocl_rect_copy (rect_copy_args a) w).2.2.node
        (eng.pocl_rect_copy (rect_copy_args a) w).2.1 = some n ∧
      a.src_origin = some so ∧ a.region = some rg ∧
      w2 = { (eng.pocl_rect_copy (rect_copy_args a) w).2.2 with
              nodes := Function.update (eng.pocl_rect_copy (rect_copy_args a) w).2.2.nodes
                (eng.pocl_rect_copy (rect_copy_args a) w).2.1
                (some { n with read_image :=
                  { src_mem_id := some { obj := a.src_image, idx := d.dev_id }
                    dst_host_ptr := NULL
                    dst_mem_id := some { obj := a.dst_buffer, idx := d.dev_id }
                    origin := so
                    region := rg
                    dst_row_pitch := 0
                    dst_slice_pitch := 0
                    dst_offset := a.dst_offset } }) } ∧
      set_owning_device a.src_image q.device (clRetainMemObject a.src_image w2) = some w4 ∧
      set_owning_device a.dst_buffer q.device (clRetainMemObject a.dst_buffer w4) = some w6 ∧
      w1 = eng.pocl_command_enqueue a.command_queue
            (eng.pocl_rect_copy (rect_copy_args a) w).2.1 w6 ∧
      calls = [Call.pocl_rect_copy (rect_copy_args a),
               Call.clRetainMemObject a.src_image,
               Call.clRetainMemObject a.dst_buffer,
               Call.pocl_command_enqueue a.command_queue
                 (eng.pocl_rect_copy (rect_copy_args a) w).2.1] := by
  unfold clEnqueueCopyImageToBuffer at h
  split at h
  · simp [CL_SUCCESS, CL_INVALID_MEM_OBJECT] at h
  · rename_i hsrc
    simp only [] at h
    split at h
    · rename_i herr
      simp at h
      exact absurd h.1 herr
    · rename_i herr
      refine ⟨hsrc, by simpa using herr, ?_⟩
      split at h
      · simp at h
      · rename_i q hq
        split at h
        · rename_i d n ms md so rg hd hn hms hmd hso hrg
          split at h
          · simp at h
          · rename_i w4 hw4
            split at h
            · simp at h
            · rename_i w6 hw6
              simp at h
              exact ⟨q, d, n, so, rg, _, w4, w6, hq, hd, hn, hso, hrg, rfl, hw4, hw6, h.1.symm, h.2.symm⟩
        · simp at h

theorem World.node_of_nodes_eq {w v : World} (h : v.nodes = w.nodes) (p : Ptr) :
    v.node p = w.node p := by
  simp [World.node, h]

theorem set_owning_device_nodes {w w1 : World} {p dev : Ptr}
    (h : set_owning_device p dev w = some w1) : w1.nodes = w.nodes := by
  obtain ⟨m, _, rfl⟩ := set_owning_device_inv h
  rfl

theorem set_owning_device_mem_same {w w1 : World} {p dev : Ptr}
    (h : set_owning_device p dev w = some w1) :
    ∃ m, w.mem p = some m ∧ w1.mem p = some { m with owning_device := dev } := by
  obtain ⟨m, hm, rfl⟩ := set_owning_device_inv h
  exact ⟨m, hm, World.mem_update_same w p _ (World.mem_ne_null hm)⟩

theorem set_owning_device_mem_other {w w1 : World} {p q dev : Ptr}
    (h : set_owning_device p dev w = some w1) (hq : q ≠ p) : w1.mem q = w.mem q := by
  obtain ⟨m, _, rfl⟩ := set_owning_device_inv h
  exact World.mem_update_other w p q _ hq

/-- A retain followed by the assignment of the owner, on one object: the
count is one higher and the owner is the device. -/
theorem retain_then_own_same {w w1 : World} {p dev : Ptr}
    (h : set_owning_device p dev (clRetainMemObject p w) = some w1) :
    ∃ m, w.mem p = some m ∧
      w1.mem p = some { pocl_refcount := m.pocl_refcount + 1, owning_device := dev } := by
  obtain ⟨m1, hm1, hw1⟩ := set_owning_device_mem_same h
  cases hm : w.mem p with
  | none =>
    have : clRetainMemObject p w = w := by simp [clRetainMemObject, hm]
    rw [this, hm] at hm1
    cases hm1
  | some m =>
    rw [World.mem_retain_same w p m hm] at hm1
    cases hm1
    exact ⟨m, rfl, hw1⟩

theorem retain_then_own_other {w w1 : World} {p q dev : Ptr}
    (h : set_owning_device p dev (clRetainMemObject p w) = some w1) (hq : q ≠ p) :
    w1.mem q = w.mem q := by
  rw [set_owning_device_mem_other h hq, World.mem_retain_other w p q hq]

theorem retain_then_own_nodes {w w1 : World} {p dev : Ptr}
    (h : set_owning_device p dev (clRetainMemObject p w) = some w1) :
    w1.nodes = w.nodes := by
  rw [set_owning_device_nodes h, World.nodes_retain]

/-- C1: a call with `src_image == NULL` returns `CL_INVALID_MEM_OBJECT`,
leaves every heap as it was (no node is created, no reference count and no
`owning_device` changes) and makes no call at all: neither `pocl_rect_copy`
nor `clRetainMemObject` nor `pocl_command_enqueue`. -/
theorem clEnqueueCopyImageToBuffer_null_src_image (eng : Engine) (a : CopyArgs) (w : World)
    (h : a.src_image = NULL) :
    clEnqueueCopyImageToBuffer eng a w = some (CL_INVALID_MEM_OBJECT, w, []) := by
  simp [clEnqueueCopyImageToBuffer, h]

/-- C2: with a non-null `src_image`, when `pocl_rect_copy` returns an error
`e`, the call returns exactly `e`, its only call is the one to
`pocl_rect_copy` (nothing is retained, nothing is enqueued), and the heaps
it leaves are those `pocl_rect_copy` left; as the failing `pocl_rect_copy`
left the memory objects alone, reference counts and owners of `src_image`
and `dst_buffer` are the same as before the call. -/
theorem clEnqueueCopyImageToBuffer_rect_copy_error (eng : Engine) (a : CopyArgs) (w : World)
    (e : cl_int)
    (hsrc : a.src_image ≠ NULL)
    (herr : (eng.pocl_rect_copy (rect_copy_args a) w).1 = e)
    (hne : e ≠ CL_SUCCESS)
    (hframe : (eng.pocl_rect_copy (rect_copy_args a) w).2.2.mems = w.mems) :
    clEnqueueCopyImageToBuffer eng a w
        = some (e, (eng.pocl_rect_copy (rect_copy_args a) w).2.2,
                [Call.pocl_rect_copy (rect_copy_args a)]) ∧
      (eng.pocl_rect_copy (rect_copy_args a) w).2.2.refcount a.src_image
        = w.refcount a.src_image ∧
      (eng.pocl_rect_copy (rect_copy_args a) w).2.2.refcount a.dst_buffer
        = w.refcount a.dst_buffer ∧
      (eng.pocl_rect_copy (rect_copy_args a) w).2.2.owner a.src_image
        = w.owner a.src_image ∧
      (eng.pocl_rect_copy (rect_copy_args a) w).2.2.owner a.dst_buffer
        = w.owner a.dst_buffer := by
  subst herr
  refine ⟨?_, ?_, ?_, ?_, ?_⟩
  · simp [clEnqueueCopyImageToBuffer, hsrc, hne]
  all_goals simp [World.refcount, World.owner, World.mem, hframe]

/-- C4: on a successful call the node handed to `pocl_command_enqueue` is
resolved for the device `dev` of the queue: `src_mem_id` and `dst_mem_id`
are the entries of `src_image` and `dst_buffer` at index `dev->dev_id`,
`dst_host_ptr` is `NULL`, `origin` and `region` are the arrays passed as
`src_origin` and `region`, `dst_offset` is the argument, both pitches are 0;
and the destination origin passed to `pocl_rect_copy` is `(dst_offset, 0, 0)`. -/
theorem clEnqueueCopyImageToBuffer_success_payload (eng : Engine) (a : CopyArgs)
    (w w1 : World) (calls : List Call)
    (h : clEnqueueCopyImageToBuffer eng a w = some (CL_SUCCESS, w1, calls)) :
    ∃ q d w0 n rc,
      (eng.pocl_rect_copy (rect_copy_args a) w).2.2.queue a.command_queue = some q ∧
      (eng.pocl_rect_copy (rect_copy_args a) w).2.2.dev q.device = some d ∧
      w1 = eng.pocl_command_enqueue a.command_queue
             (eng.pocl_rect_copy (rect_copy_args a) w).2.1 w0 ∧
      w0.node (eng.pocl_rect_copy (rect_copy_args a) w).2.1 = some n ∧
      n.read_image.src_mem_id = some { obj := a.src_image, idx := d.dev_id } ∧
      n.read_image.dst_mem_id = some { obj := a.dst_buffer, idx := d.dev_id } ∧
      n.read_image.dst_host_ptr = NULL ∧
      a.src_origin = some n.read_image.origin ∧
      a.region = some n.read_image.region ∧
      n.read_image.dst_offset = a.dst_offset ∧
      n.read_image.dst_row_pitch = 0 ∧
      n.read_image.dst_slice_pitch = 0 ∧
      calls.head? = some (Call.pocl_rect_copy rc) ∧
      rc.dst_origin = some (a.dst_offset, 0, 0) := by
  obtain ⟨_, _, q, d, n, so, rg, w2, w4, w6, hq, hd, hn, hso, hrg, hw2, hw4, hw6, hw1, hcalls⟩ :=
    enqueue_success_inv eng a w w1 calls h
  have hcmd : (eng.pocl_rect_copy (rect_copy_args a) w).2.1 ≠ NULL := by
    intro h0
    simp [World.node, h0] at hn
  have hnodes : w6.nodes = w2.nodes := by
    rw [retain_then_own_nodes hw6, retain_then_own_nodes hw4]
  have hnode : w6.node (eng.pocl_rect_copy (rect_copy_args a) w).2.1 =
      some { n with read_image :=
        { src_mem_id := some { obj := a.src_image, idx := d.dev_id }
          dst_host_ptr := NULL
          dst_mem_id := some { obj := a.dst_buffer, idx := d.dev_id }
          origin := so
          region := rg
          dst_row_pitch := 0
          dst_slice_pitch := 0
          dst_offset := a.dst_offset } } := by
    rw [World.node_of_nodes_eq hnodes, hw2]
    simp [World.node, hcmd]
  refine ⟨q, d, w6, _, rect_copy_args a, hq, hd, hw1, hnode, rfl, rfl, rfl, hso, hrg, rfl, rfl,
    rfl, ?_, rfl⟩
  simp [hcalls]

/-- C5, as the code has it: the enqueue call itself writes the owner.  On a
call that returns `CL_SUCCESS`, in the heaps handed to `pocl_command_enqueue`
the `owning_device` of `src_image` and of `dst_buffer` are both the device of
the queue, also for the source image, which the command only reads.  A call
that returns another status has written no `owning_device`: the heaps it
leaves are those it was given, or those `pocl_rect_copy` left. -/
theorem clEnqueueCopyImageToBuffer_sets_owning_device (eng : Engine) (a : CopyArgs)
    (w w1 : World) (calls : List Call) (status : cl_int)
    (h : clEnqueueCopyImageToBuffer eng a w = some (status, w1, calls)) :
    (status = CL_SUCCESS ∧
      ∃ q w0,
        (eng.pocl_rect_copy (rect_copy_args a) w).2.2.queue a.command_queue = some q ∧
        w1 = eng.pocl_command_enqueue a.command_queue
               (eng.pocl_rect_copy (rect_copy_args a) w).2.1 w0 ∧
        w0.owner a.src_image = some q.device ∧
        w0.owner a.dst_buffer = some q.device) ∨
    (status ≠ CL_SUCCESS ∧
      (w1 = w ∨ w1 = (eng.pocl_rect_copy (rect_copy_args a) w).2.2)) := by
  by_cases hs : status = CL_SUCCESS
  · left
    subst hs
    obtain ⟨_, _, q, d, n, so, rg, w2, w4, w6, hq, _, _, _, _, _, hw4, hw6, hw1, _⟩ :=
      enqueue_success_inv eng a w w1 calls h
    obtain ⟨ms, _, hms4⟩ := retain_then_own_same hw4
    obtain ⟨md, _, hmd6⟩ := retain_then_own_same hw6
    refine ⟨rfl, q, w6, hq, hw1, ?_, ?_⟩
    · by_cases hal : a.src_image = a.dst_buffer
      · simp [World.owner, hal, hmd6]
      · simp [World.owner, retain_then_own_other hw6 hal, hms4]
    · simp [World.owner, hmd6]
  · right
    refine ⟨hs, ?_⟩
    unfold clEnqueueCopyImageToBuffer at h
    split at h
    · simp at h
      exact Or.inl h.2.1.symm
    · simp only [] at h
      split at h
      · simp at h
        exact Or.inr h.2.1.symm
      · exfalso
        split at h
        · simp at h
        · split at h
          · split at h
            · simp at h
            · split at h
              · simp at h
              · simp at h
                exact hs h.1.symm
          · simp at h

/-- The example run returns `CL_SUCCESS`. -/
theorem exOutcome_eq :
    clEnqueueCopyImageToBuffer exEngine exArgs exWorld
      = some (CL_SUCCESS, exOutcome.2.1, exOutcome.2.2) := by
  rfl

/-- C1 at the example heaps, with a null source image. -/
theorem clEnqueueCopyImageToBuffer_null_src_image_witness :
    exArgsNull.src_image = NULL ∧
    clEnqueueCopyImageToBuffer exEngine exArgsNull exWorld
      = some (CL_INVALID_MEM_OBJECT, exWorld, []) :=
  ⟨rfl, clEnqueueCopyImageToBuffer_null_src_image exEngine exArgsNull exWorld rfl⟩

/-- C2 at the example heaps, with an engine whose `pocl_rect_copy` fails. -/
theorem clEnqueueCopyImageToBuffer_rect_copy_error_witness :
    exArgs.src_image ≠ NULL ∧
    (exFailingEngine.pocl_rect_copy (rect_copy_args exArgs) exWorld).1 = -4 ∧
    (-4 : cl_int) ≠ CL_SUCCESS ∧
    (exFailingEngine.pocl_rect_copy (rect_copy_args exArgs) exWorld).2.2.mems = exWorld.mems ∧
    clEnqueueCopyImageToBuffer exFailingEngine exArgs exWorld
      = some (-4, exWorld, [Call.pocl_rect_copy (rect_copy_args exArgs)]) ∧
    exWorld.refcount exArgs.src_image = exWorld.refcount exArgs.src_image ∧
    exWorld.refcount exArgs.dst_buffer = exWorld.refcount exArgs.dst_buffer ∧
    exWorld.owner exArgs.src_image = exWorld.owner exArgs.src_image ∧
    exWorld.owner exArgs.dst_buffer = exWorld.owner exArgs.dst_buffer :=
  ⟨by decide, rfl, by decide, rfl,
   clEnqueueCopyImageToBuffer_rect_copy_error exFailingEngine exArgs exWorld (-4)
     (by decide) rfl (by decide) rfl⟩

/-- C4 at the example run. -/
theorem clEnqueueCopyImageToBuffer_success_payload_witness :
    clEnqueueCopyImageToBuffer exEngine exArgs exWorld
      = some (CL_SUCCESS, exOutcome.2.1, exOutcome.2.2) ∧
    ∃ q d w0 n rc,
      (exEngine.pocl_rect_copy (rect_copy_args exArgs) exWorld).2.2.queue exArgs.command_queue
        = some q ∧
      (exEngine.pocl_rect_copy (rect_copy_args exArgs) exWorld).2.2.dev q.device = some d ∧
      exOutcome.2.1 = exEngine.pocl_command_enqueue exArgs.command_queue
             (exEngine.pocl_rect_copy (rect_copy_args exArgs) exWorld).2.1 w0 ∧
      w0.node (exEngine.pocl_rect_copy (rect_copy_args exArgs) exWorld).2.1 = some n ∧
      n.read_image.src_mem_id = some { obj := exArgs.src_image, idx := d.dev_id } ∧
      n.read_image.dst_mem_id = some { obj := exArgs.dst_buffer, idx := d.dev_id } ∧
      n.read_image.dst_host_ptr = NULL ∧
      exArgs.src_origin = some n.read_image.origin ∧
      exArgs.region = some n.read_image.region ∧
      n.read_image.dst_offset = exArgs.dst_offset ∧
      n.read_image.dst_row_pitch = 0 ∧
      n.read_image.dst_slice_pitch = 0 ∧
      exOutcome.2.2.head? = some (Call.pocl_rect_copy rc) ∧
      rc.dst_origin = some (exArgs.dst_offset, 0, 0) :=
  ⟨exOutcome_eq,
   clEnqueueCopyImageToBuffer_success_payload exEngine exArgs exWorld exOutcome.2.1
     exOutcome.2.2 exOutcome_eq⟩

/-- C5 as claimed fails on the example run: the call returns `CL_SUCCESS`,
and the owner of the image and of the buffer, the device at 31 before the
call, is the device at 30 of the queue when the call returns. -/
theorem clEnqueueCopyImageToBuffer_changes_owner :
    (clEnqueueCopyImageToBuffer exEngine exArgs exWorld).map
        (fun r => (r.1, exWorld.owner exArgs.src_image, r.2.1.owner exArgs.src_image,
                   exWorld.owner exArgs.dst_buffer, r.2.1.owner exArgs.dst_buffer))
      = some (CL_SUCCESS, some 31, some 30, some 31, some 30) := by
  decide

/-- C5 as amended, at the example run. -/
theorem clEnqueueCopyImageToBuffer_sets_owning_device_witness :
    clEnqueueCopyImageToBuffer exEngine exArgs exWorld
      = some (CL_SUCCESS, exOutcome.2.1, exOutcome.2.2) ∧
    ((CL_SUCCESS = CL_SUCCESS ∧
      ∃ q w0,
        (exEngine.pocl_rect_copy (rect_copy_args exArgs) exWorld).2.2.queue exArgs.command_queue
          = some q ∧
        exOutcome.2.1 = exEngine.pocl_command_enqueue exArgs.command_queue
               (exEngine.pocl_rect_copy (rect_copy_args exArgs) exWorld).2.1 w0 ∧
        w0.owner exArgs.src_image = some q.device ∧
        w0.owner exArgs.dst_buffer = some q.device) ∨
    (CL_SUCCESS ≠ CL_SUCCESS ∧
      (exOutcome.2.1 = exWorld ∨
       exOutcome.2.1 = (exEngine.pocl_rect_copy (rect_copy_args exArgs) exWorld).2.2))) :=
  ⟨exOutcome_eq,
   clEnqueueCopyImageToBuffer_sets_owning_device exEngine exArgs exWorld exOutcome.2.1
     exOutcome.2.2 CL_SUCCESS exOutcome_eq⟩

/-! ## The file utilities -/

theorem FS.find_erase_same (fs : FS) (p : Path) : FS.find (FS.erase fs p) p = none := by
  induction fs with
  | nil => rfl
  | cons e rest ih =>
    obtain ⟨q, n⟩ := e
    by_cases h : q = p
    · simp [FS.erase, h, ih]
    · simp [FS.erase, FS.find, h, ih]

theorem FS.find_put_same (fs : FS) (p : Path) (n : Node) : FS.find (FS.put fs p n) p = some n := by
  simp [FS.put, FS.find]

/-- The contents of the file after the stream part of `pocl_write_file` ran
in mode `w` and returned 0. -/
theorem pocl_write_file_stream_w (fs : FS) (path : Path) (content : List Byte) (count : Nat)
    (h : (pocl_write_file_stream fs path content count 0).1 = 0) :
    FS.find (pocl_write_file_stream fs path content count 0).2 path
      = some (Node.file (content.take count)) := by
  unfold pocl_write_file_stream at h ⊢
  simp only [ne_eq, not_true_eq_false, if_false] at h ⊢
  unfold fopen at h ⊢
  cases hf : FS.find fs path with
  | none =>
    simp only [hf] at h ⊢
    by_cases hp : FS.parent_ok fs path = true
    · simp [hp, fwrite, fclose, FS.find_put_same]
    · simp [hp] at h
  | some n =>
    cases n with
    | dir => simp [hf] at h
    | file c => simp [hf, fwrite, fclose, FS.find_put_same]

/-- The contents of the file after the stream part of `pocl_write_file` ran
in mode `a` and returned 0: what the file held, or nothing for a new file,
then the bytes written. -/
theorem pocl_write_file_stream_a (fs : FS) (path : Path) (content : List Byte) (count : Nat)
    (append : Int) (happ : append ≠ 0)
    (h : (pocl_write_file_stream fs path content count append).1 = 0) :
    FS.find (pocl_write_file_stream fs path content count append).2 path
      = some (Node.file
          ((match FS.find fs path with
            | some (Node.file old) => old
            | _ => []) ++ content.take count)) := by
  unfold pocl_write_file_stream at h ⊢
  simp only [ne_eq, happ, not_false_eq_true, if_true] at h ⊢
  unfold fopen at h ⊢
  cases hf : FS.find fs path with
  | none =>
    simp only [hf] at h ⊢
    by_cases hp : FS.parent_ok fs path = true
    · simp [hp, fwrite, fclose, FS.find_put_same]
    · simp [hp] at h
  | some n =>
    cases n with
    | dir => simp [hf] at h
    | file c => simp [hf, fwrite, fclose, FS.find_put_same]

/-- Reading a regular file: status 0, the size of the file, and its bytes
followed by one zero byte. -/
theorem pocl_read_file_of_file (fs : FS) (path : Path) (c : List Byte) (filesize0 : Nat)
    (h : FS.find fs path = some (Node.file c)) :
    pocl_read_file fs path filesize0
      = { errcode := 0, content := some (c ++ [0]), filesize := c.length } := by
  simp [pocl_read_file, pocl_filesize, fopen, h, ftell_end, fread, fclose]

/-- C6: when `pocl_write_file (path, content, count, 0, 0)` returns 0, with
`count` at most the length of `content`, `pocl_read_file` on the file system
it leaves returns 0, stores `count` in `*filesize`, and stores a buffer whose
first `count` bytes are the first `count` bytes of `content` and whose byte at
offset `count` is 0. -/
theorem pocl_write_file_read_file_roundtrip (fs : FS) (path : Path) (content : List Byte)
    (count filesize0 : Nat)
    (hcount : count ≤ content.length)
    (hw : (pocl_write_file fs path content count 0 0).1 = 0) :
    ∃ buf,
      pocl_read_file (pocl_write_file fs path content count 0 0).2 path filesize0
        = { errcode := 0, content := some buf, filesize := count } ∧
      buf.take count = content.take count ∧
      buf[count]? = some 0 := by
  have hfile : FS.find (pocl_write_file fs path content count 0 0).2 path
      = some (Node.file (content.take count)) := by
    unfold pocl_write_file at hw ⊢
    by_cases hex : pocl_exists fs path ≠ 0
    · simp only [hex, if_true, ne_eq, not_true_eq_false, if_false] at hw ⊢
      by_cases hrm : (pocl_remove fs path).1 ≠ 0
      · simp only [hrm, if_true] at hw
        exact absurd hw hrm
      · simp only [hrm, if_false] at hw ⊢
        exact pocl_write_file_stream_w _ path content count hw
    · simp only [hex, if_false] at hw ⊢
      exact pocl_write_file_stream_w _ path content count hw
  have hlen : (content.take count).length = count := by
    simp [List.length_take, hcount]
  refine ⟨content.take count ++ [0], ?_, ?_, ?_⟩
  · rw [pocl_read_file_of_file _ path _ filesize0 hfile, hlen]
  · rw [List.take_append_of_le_length (by omega)]
    simp [List.take_take]
  · rw [List.getElem?_append_right (by omega)]
    simp [hlen]

/-- C6 on the example file system. -/
theorem pocl_write_file_read_file_roundtrip_witness :
    2 ≤ [3, 4, 5].length ∧
    (pocl_write_file exFS exPath [3, 4, 5] 2 0 0).1 = 0 ∧
    ∃ buf,
      pocl_read_file (pocl_write_file exFS exPath [3, 4, 5] 2 0 0).2 exPath 99
        = { errcode := 0, content := some buf, filesize := 2 } ∧
      buf.take 2 = [3, 4, 5].take 2 ∧
      buf[2]? = some 0 :=
  ⟨by decide, by decide,
   pocl_write_file_read_file_roundtrip exFS exPath [3, 4, 5] 2 99 (by decide) (by decide)⟩

/-- C7 as claimed fails on the example file system: with `append = 1` and
`dont_rewrite = 0` the call returns 0 and the file, which held the bytes 1
and 2, holds the bytes 3 and 4 only. -/
theorem pocl_write_file_append_discards_old :
    FS.find exFS exPath = some (Node.file [1, 2]) ∧
    (pocl_write_file exFS exPath [3, 4, 5] 2 1 0).1 = 0 ∧
    FS.find (pocl_write_file exFS exPath [3, 4, 5] 2 1 0).2 exPath = some (Node.file [3, 4]) := by
  decide

/-- C7, as the code has it: on an existing regular file holding `old`, when
`pocl_write_file` with `append != 0` returns 0 the file holds `old` followed
by the first `count` bytes of `content` if `dont_rewrite != 0`, and those
`count` bytes alone if `dont_rewrite == 0`, the file having been removed
before the stream was opened. -/
theorem pocl_write_file_append (fs : FS) (path : Path) (old content : List Byte)
    (count : Nat) (append dont_rewrite : Int)
    (hold : FS.find fs path = some (Node.file old))
    (happ : append ≠ 0)
    (hw : (pocl_write_file fs path content count append dont_rewrite).1 = 0) :
    FS.find (pocl_write_file fs path content count append dont_rewrite).2 path
      = some (Node.file ((if dont_rewrite ≠ 0 then old else []) ++ content.take count)) := by
  have hex : pocl_exists fs path ≠ 0 := by
    simp [pocl_exists, access_R_OK, hold]
  unfold pocl_write_file at hw ⊢
  rw [if_pos hex] at hw ⊢
  by_cases hd : dont_rewrite ≠ 0
  · rw [if_pos hd, if_neg happ] at hw ⊢
    rw [if_pos hd, pocl_write_file_stream_a fs path content count append happ hw, hold]
  · have hrm : pocl_remove fs path = (0, FS.erase fs path) := by
      simp [pocl_remove, remove, hold]
    have h0 : ¬ ((0 : Int) ≠ 0) := by decide
    rw [if_neg hd] at hw ⊢
    simp only [hrm] at hw ⊢
    rw [if_neg h0] at hw ⊢
    rw [if_neg hd, pocl_write_file_stream_a _ path content count append happ hw,
      FS.find_erase_same]

/-- C7 as amended, on the example file system, with `dont_rewrite = 1`. -/
theorem pocl_write_file_append_witness :
    FS.find exFS exPath = some (Node.file [1, 2]) ∧
    (1 : Int) ≠ 0 ∧
    (pocl_write_file exFS exPath [3, 4, 5] 2 1 1).1 = 0 ∧
    FS.find (pocl_write_file exFS exPath [3, 4, 5] 2 1 1).2 exPath
      = some (Node.file ((if (1 : Int) ≠ 0 then [1, 2] else []) ++ [3, 4, 5].take 2)) :=
  ⟨by decide, by decide, by decide,
   pocl_write_file_append exFS exPath [1, 2] [3, 4, 5] 2 1 1 (by decide) (by decide) (by decide)⟩

/-! ## The compiler state -/

theorem setOption_bind (env : LLVMEnv) (name value : String) (s : LLVMState)
    (f : LLVMState → Option LLVMState) :
    (setOption env name value s).bind f
      = if env.registered name = true then f (s.call (LLVMCall.addOccurrence name value))
        else none := by
  unfold setOption
  by_cases h : env.registered name = true
  · simp [h]
  · simp [h]

/-- From a state in which LLVM is not initialised, `InitializeLLVM` makes
the global initialisation calls of lines 209 to 227, reads the work-group
method, adds one occurrence of each option of lines 244 to 285 that the
configuration asks for, in order, and sets the flag; it stops on an
assertion exactly when one of those options is not registered. -/
theorem InitializeLLVM_of_not_initialized (env : LLVMEnv) (s : LLVMState)
    (h : s.LLVMInitialized = false) :
    ∃ opts : List (String × String),
      opts =
        (if env.pocl_get_string_option "POCL_WORK_GROUP_METHOD" "loopvec" = "loopvec" then
          [("scalarize-load-store", "1"), ("vectorizer-min-trip-count", "2")] ++
          (if env.pocl_get_bool_option "POCL_VECTORIZER_REMARKS" 0 = 1 then
            [("pass-remarks-missed", "loop-vectorize"),
             ("pass-remarks-analysis", "loop-vectorize"),
             ("pass-remarks", "loop-vectorize")]
           else [])
         else []) ++
        (if env.pocl_get_bool_option "POCL_DEBUG_LLVM_PASSES" 0 = 1 then [("debug", "true")]
         else []) ++
        [("unroll-threshold", "1")] ∧
      InitializeLLVM env s =
        if opts.all (fun o => env.registered o.1) then
          some { s with
            LLVMInitialized := true
            currentWgMethod := env.pocl_get_string_option "POCL_WORK_GROUP_METHOD" "loopvec"
            calls := s.calls ++
              [LLVMCall.InitializeAllTargets, LLVMCall.InitializeAllTargetMCs,
               LLVMCall.InitializeAllAsmPrinters, LLVMCall.InitializeAllAsmParsers,
               LLVMCall.initializeCore, LLVMCall.initializeScalarOpts,
               LLVMCall.initializeVectorization, LLVMCall.initializeIPO,
               LLVMCall.initializeAnalysis] ++
              (if env.LLVM_OLDER_THAN_3_8 then [LLVMCall.initializeIPA] else []) ++
              [LLVMCall.initializeTransformUtils, LLVMCall.initializeInstCombine,
               LLVMCall.initializeInstrumentation, LLVMCall.initializeTarget] ++
              opts.map (fun o => LLVMCall.addOccurrence o.1 o.2) }
        else none := by
  refine ⟨_, rfl, ?_⟩
  unfold InitializeLLVM setLoopvec setRemarks setDebug
  simp only [h, Bool.false_eq_true, if_false]
  by_cases hw : env.pocl_get_string_option "POCL_WORK_GROUP_METHOD" "loopvec" = "loopvec" <;>
  by_cases hr : env.pocl_get_bool_option "POCL_VECTORIZER_REMARKS" 0 = 1 <;>
  by_cases hd : env.pocl_get_bool_option "POCL_DEBUG_LLVM_PASSES" 0 = 1 <;>
  simp only [hw, hr, hd, if_true, if_false, setOption_bind, Option.some_bind,
    List.all_cons, List.all_nil, List.append_nil, List.nil_append, List.cons_append,
    List.map_cons, List.map_nil, Bool.and_true, Bool.and_eq_true, not_true_eq_false,
    not_false_eq_true] <;>
  split_ifs <;>
  simp_all [LLVMState.call, initializeCalls, setOption]

/-- The early-return path of `pocl_llvm_release`. -/
theorem pocl_llvm_release_busy (s : LLVMState) (hpos : 0 < s.numberOfIRs) :
    pocl_llvm_release s = some { s with calls := s.calls ++
      [LLVMCall.POCL_LOCK_kernelCompilerLock,
       LLVMCall.POCL_MSG_PRINT_LLVM "still have references to IRs - not releasing LLVM\n",
       LLVMCall.POCL_UNLOCK_kernelCompilerLock] } := by
  have hassert : ¬ ¬ ((PoclCompilerMutexGuard.ctor s).numberOfIRs ≥ 0) := by
    simp only [PoclCompilerMutexGuard.ctor, LLVMState.call]
    omega
  have hpos1 : (PoclCompilerMutexGuard.ctor s).numberOfIRs > 0 := hpos
  unfold pocl_llvm_release
  simp only []
  rw [if_neg hassert, if_pos hpos1]
  simp [PoclCompilerMutexGuard.dtor, PoclCompilerMutexGuard.ctor, LLVMState.call]

/-- The full-release path of `pocl_llvm_release`. -/
theorem pocl_llvm_release_idle (s : LLVMState) (hzero : s.numberOfIRs = 0) :
    pocl_llvm_release s = some { s with
      globalContext := NULL
      LLVMInitialized := false
      calls := s.calls ++
        [LLVMCall.POCL_LOCK_kernelCompilerLock,
         LLVMCall.POCL_MSG_PRINT_LLVM "releasing LLVM\n",
         LLVMCall.clearKernelPasses,
         LLVMCall.clearTargetMachines,
         LLVMCall.cleanKernelLibrary,
         LLVMCall.delete_LLVMContext s.globalContext,
         LLVMCall.POCL_UNLOCK_kernelCompilerLock] } := by
  have hassert : ¬ ¬ ((PoclCompilerMutexGuard.ctor s).numberOfIRs ≥ 0) := by
    simp only [PoclCompilerMutexGuard.ctor, LLVMState.call]
    omega
  have hpos1 : ¬ (PoclCompilerMutexGuard.ctor s).numberOfIRs > 0 := by
    simp only [PoclCompilerMutexGuard.ctor, LLVMState.call]
    omega
  unfold pocl_llvm_release
  simp only []
  rw [if_neg hassert, if_neg hpos1]
  simp [PoclCompilerMutexGuard.dtor, PoclCompilerMutexGuard.ctor, LLVMState.call]

/-- C8: `pocl_llvm_release` returns from every state with a count of IRs
that is not negative.  With `numberOfIRs > 0` the context pointer and the
flag `LLVMInitialized` are as before and the only calls made are the lock, the
message and the unlock: no clear or clean routine, no deletion.  With
`numberOfIRs == 0` the context pointer is null and the flag is false
afterwards, so that the next `GlobalContext ()` stores and returns a newly
allocated context, and the next `InitializeLLVM ()` runs the initialisation
again: it makes the fourteen global initialisation calls (fifteen on an LLVM
older than 3.8), adds one occurrence of each option the configuration asks
for, in the order of the source, and sets the flag; it stops on an assertion
exactly when one of those options is not registered. -/
theorem pocl_llvm_release_keeps_or_tears_down (s : LLVMState) (h : 0 ≤ s.numberOfIRs) :
    ∃ s1, pocl_llvm_release s = some s1 ∧
      ((0 < s.numberOfIRs ∧
        s1.globalContext = s.globalContext ∧
        s1.LLVMInitialized = s.LLVMInitialized ∧
        s1.calls = s.calls ++
          [LLVMCall.POCL_LOCK_kernelCompilerLock,
           LLVMCall.POCL_MSG_PRINT_LLVM "still have references to IRs - not releasing LLVM\n",
           LLVMCall.POCL_UNLOCK_kernelCompilerLock]) ∨
       (s.numberOfIRs = 0 ∧
        s1.globalContext = NULL ∧
        s1.LLVMInitialized = false ∧
        s1.calls = s.calls ++
          [LLVMCall.POCL_LOCK_kernelCompilerLock,
           LLVMCall.POCL_MSG_PRINT_LLVM "releasing LLVM\n",
           LLVMCall.clearKernelPasses,
           LLVMCall.clearTargetMachines,
           LLVMCall.cleanKernelLibrary,
           LLVMCall.delete_LLVMContext s.globalContext,
           LLVMCall.POCL_UNLOCK_kernelCompilerLock] ∧
        (∀ fresh, GlobalContext fresh s1 =
          (fresh, { s1 with globalContext := fresh
                            calls := s1.calls ++ [LLVMCall.new_LLVMContext fresh] })) ∧
        (∀ env, ∃ opts : List (String × String),
          opts =
            (if env.pocl_get_string_option "POCL_WORK_GROUP_METHOD" "loopvec" = "loopvec" then
              [("scalarize-load-store", "1"), ("vectorizer-min-trip-count", "2")] ++
              (if env.pocl_get_bool_option "POCL_VECTORIZER_REMARKS" 0 = 1 then
                [("pass-remarks-missed", "loop-vectorize"),
                 ("pass-remarks-analysis", "loop-vectorize"),
                 ("pass-remarks", "loop-vectorize")]
               else [])
             else []) ++
            (if env.pocl_get_bool_option "POCL_DEBUG_LLVM_PASSES" 0 = 1 then
              [("debug", "true")]
             else []) ++
            [("unroll-threshold", "1")] ∧
          InitializeLLVM env s1 =
            if opts.all (fun o => env.registered o.1) then
              some { s1 with
                LLVMInitialized := true
                currentWgMethod :=
                  env.pocl_get_string_option "POCL_WORK_GROUP_METHOD" "loopvec"
                calls := s1.calls ++
                  [LLVMCall.InitializeAllTargets, LLVMCall.InitializeAllTargetMCs,
                   LLVMCall.InitializeAllAsmPrinters, LLVMCall.InitializeAllAsmParsers,
                   LLVMCall.initializeCore, LLVMCall.initializeScalarOpts,
                   LLVMCall.initializeVectorization, LLVMCall.initializeIPO,
                   LLVMCall.initializeAnalysis] ++
                  (if env.LLVM_OLDER_THAN_3_8 then [LLVMCall.initializeIPA] else []) ++
                  [LLVMCall.initializeTransformUtils, LLVMCall.initializeInstCombine,
                   LLVMCall.initializeInstrumentation, LLVMCall.initializeTarget] ++
                  opts.map (fun o => LLVMCall.addOccurrence o.1 o.2) }
            else none))) := by
  by_cases hpos : 0 < s.numberOfIRs
  · exact ⟨_, pocl_llvm_release_busy s hpos, Or.inl ⟨hpos, rfl, rfl, rfl⟩⟩
  · have hzero : s.numberOfIRs = 0 := by omega
    refine ⟨_, pocl_llvm_release_idle s hzero, Or.inr ⟨hzero, rfl, rfl, rfl, ?_, ?_⟩⟩
    · intro fresh
      simp [GlobalContext, LLVMState.call]
    · intro env
      exact InitializeLLVM_of_not_initialized env _ rfl

/-- C8 on the two example states: with two IRs nothing is torn down; with
none the context pointer is cleared, and `InitializeLLVM` in the example
environment then makes the fourteen initialisation calls, sets the three
options of the default configuration and sets the flag. -/
theorem pocl_llvm_release_keeps_or_tears_down_witness :
    (0 ≤ exLLVMBusy.numberOfIRs ∧
      (pocl_llvm_release exLLVMBusy).map (fun s1 => (s1.globalContext, s1.LLVMInitialized))
        = some (50, true)) ∧
    (0 ≤ exLLVMIdle.numberOfIRs ∧
      (pocl_llvm_release exLLVMIdle).map (fun s1 => (s1.globalContext, s1.LLVMInitialized))
        = some (NULL, false) ∧
      ((pocl_llvm_release exLLVMIdle).bind (InitializeLLVM exLLVMEnv)).map
          (fun s2 => (s2.LLVMInitialized, s2.calls.drop 7))
        = some (true,
            [LLVMCall.InitializeAllTargets, LLVMCall.InitializeAllTargetMCs,
             LLVMCall.InitializeAllAsmPrinters, LLVMCall.InitializeAllAsmParsers,
             LLVMCall.initializeCore, LLVMCall.initializeScalarOpts,
             LLVMCall.initializeVectorization, LLVMCall.initializeIPO,
             LLVMCall.initializeAnalysis, LLVMCall.initializeTransformUtils,
             LLVMCall.initializeInstCombine, LLVMCall.initializeInstrumentation,
             LLVMCall.initializeTarget,
             LLVMCall.addOccurrence "scalarize-load-store" "1",
             LLVMCall.addOccurrence "vectorizer-min-trip-count" "2",
             LLVMCall.addOccurrence "unroll-threshold" "1"])) := by
  refine ⟨⟨by decide, ?_⟩, ⟨by decide, ?_, ?_⟩⟩
  · obtain ⟨s1, h1, h2⟩ := pocl_llvm_release_keeps_or_tears_down exLLVMBusy (by decide)
    rw [h1]
    rcases h2 with ⟨_, hc, hi, _⟩ | ⟨hz, _⟩
    · simp [hc, hi, exLLVMBusy]
    · exact absurd hz (by decide)
  · obtain ⟨s1, h1, h2⟩ := pocl_llvm_release_keeps_or_tears_down exLLVMIdle (by decide)
    rw [h1]
    rcases h2 with ⟨hp, _⟩ | ⟨_, hc, hi, _⟩
    · exact absurd hp (by decide)
    · simp [hc, hi]
  · obtain ⟨s1, h1, h2⟩ := pocl_llvm_release_keeps_or_tears_down exLLVMIdle (by decide)
    rw [h1]
    rcases h2 with ⟨hp, _⟩ | ⟨_, _, _, hcalls, _, hinit⟩
    · exact absurd hp (by decide)
    · obtain ⟨opts, hopts, hrun⟩ := hinit exLLVMEnv
      have hopts1 : opts = [("scalarize-load-store", "1"), ("vectorizer-min-trip-count", "2"),
          ("unroll-threshold", "1")] := by
        rw [hopts]
        simp [exLLVMEnv]
      subst hopts1
      simp only [Option.some_bind, hrun]
      simp [exLLVMEnv, hcalls, exLLVMIdle, exLLVMBusy]

/-! ## The debug timing -/

/-- C10: with `pocl_debug_messages == 0`, `pocl_debug_measure_start` and
`pocl_debug_measure_finish` return with the state as it was, whatever the
`start` and `finish` pointers: no reading of the clock is taken, no buffer
is written, nothing is printed.  Neither function has a result other than
the state. -/
theorem pocl_debug_measure_disabled (s : DebugState) (start finish : Ptr) (msg func : String)
    (line : Nat) (h : s.pocl_debug_messages = 0) :
    pocl_debug_measure_start start s = some s ∧
    pocl_debug_measure_finish start finish msg func line s = some s := by
  simp [pocl_debug_measure_start, pocl_debug_measure_finish, h]

/-- C10 on the example state, with a null `finish` pointer. -/
theorem pocl_debug_measure_disabled_witness :
    exDebugOff.pocl_debug_messages = 0 ∧
    pocl_debug_measure_start 60 exDebugOff = some exDebugOff ∧
    pocl_debug_measure_finish 60 NULL "msg" "fn" 7 exDebugOff = some exDebugOff :=
  ⟨rfl, pocl_debug_measure_disabled exDebugOff 60 NULL "msg" "fn" 7 rfl⟩

theorem wrap_long_of_range (x : Int) (h1 : -2 ^ 63 ≤ x) (h2 : x < 2 ^ 63) : wrap_long x = x := by
  unfold wrap_long
  omega

/-- C13: with the messages enabled and both pointers on buffers,
`pocl_debug_measure_finish` stores the next reading of the clock in `*finish`
and prints one line whose pair `(sec, nsec)` is the normalised difference of
the finish and start timestamps, for nanosecond fields in `[0, 10^9)` and a
difference of seconds that fits a `long`: `0 <= nsec < 10^9`,
`sec * 10^9 + nsec` is the difference in nanoseconds, and one second is
borrowed exactly when `finish.tv_nsec < start.tv_nsec`.  The start timestamp
is what `*start` holds when it is read, which is the new reading when the two
pointers are equal. -/
theorem pocl_debug_measure_finish_elapsed (s : DebugState) (start finish : Ptr)
    (msg func : String) (line : Nat) (old sta0 : timespec)
    (hen : s.pocl_debug_messages ≠ 0)
    (hfinish : s.buf finish = some old)
    (hstart : s.buf start = some sta0)
    (hfn : 0 ≤ (s.clock s.clock_reads).tv_nsec ∧ (s.clock s.clock_reads).tv_nsec < 1000000000)
    (hsn : 0 ≤ (if start = finish then s.clock s.clock_reads else sta0).tv_nsec ∧
           (if start = finish then s.clock s.clock_reads else sta0).tv_nsec < 1000000000)
    (hov : -2 ^ 63 ≤ (s.clock s.clock_reads).tv_sec
                - (if start = finish then s.clock s.clock_reads else sta0).tv_sec
                - (if (s.clock s.clock_reads).tv_nsec
                      < (if start = finish then s.clock s.clock_reads else sta0).tv_nsec
                   then 1 else 0) ∧
           (s.clock s.clock_reads).tv_sec
                - (if start = finish then s.clock s.clock_reads else sta0).tv_sec < 2 ^ 63) :
    ∃ sec nsec,
      pocl_debug_measure_finish start finish msg func line s
        = some { s with
            bufs := Function.update s.bufs finish (some (s.clock s.clock_reads))
            clock_reads := s.clock_reads + 1
            printed := s.printed ++
              [{ func := func, line := line, sec := sec, nsec := nsec, msg := msg }] } ∧
      0 ≤ nsec ∧ nsec < 1000000000 ∧
      sec * 1000000000 + nsec
        = ((s.clock s.clock_reads).tv_sec
            - (if start = finish then s.clock s.clock_reads else sta0).tv_sec) * 1000000000
          + ((s.clock s.clock_reads).tv_nsec
            - (if start = finish then s.clock s.clock_reads else sta0).tv_nsec) ∧
      sec = (s.clock s.clock_reads).tv_sec
            - (if start = finish then s.clock s.clock_reads else sta0).tv_sec
            - (if (s.clock s.clock_reads).tv_nsec
                  < (if start = finish then s.clock s.clock_reads else sta0).tv_nsec
               then 1 else 0) := by
  have hf0 : finish ≠ NULL := by
    intro h0; simp [DebugState.buf, h0] at hfinish
  have hs0 : start ≠ NULL := by
    intro h0; simp [DebugState.buf, h0] at hstart
  have hfb : s.bufs finish = some old := by simpa [DebugState.buf, hf0] using hfinish
  have hsb : s.bufs start = some sta0 := by simpa [DebugState.buf, hs0] using hstart
  generalize hfin : s.clock s.clock_reads = fin at *
  generalize hsta : (if start = finish then fin else sta0) = sta at *
  have hclk : clock_gettime finish s = some { s with
      bufs := Function.update s.bufs finish (some fin)
      clock_reads := s.clock_reads + 1 } := by
    simp [clock_gettime, hf0, hfb, hfin]
  have hbf : ({ s with bufs := Function.update s.bufs finish (some fin)
                       clock_reads := s.clock_reads + 1 } : DebugState).buf finish
      = some fin := by
    simp [DebugState.buf, hf0]
  have hbs : ({ s with bufs := Function.update s.bufs finish (some fin)
                       clock_reads := s.clock_reads + 1 } : DebugState).buf start
      = some sta := by
    by_cases he : start = finish
    · subst he
      simp [DebugState.buf, hs0, ← hsta]
    · simp [DebugState.buf, hs0, Function.update_noteq he, hsb, ← hsta, he]
  obtain ⟨hfn1, hfn2⟩ := hfn
  obtain ⟨hsn1, hsn2⟩ := hsn
  obtain ⟨hov1, hov2⟩ := hov
  have hn0 : wrap_long (fin.tv_nsec - sta.tv_nsec) = fin.tv_nsec - sta.tv_nsec :=
    wrap_long_of_range _ (by omega) (by omega)
  unfold pocl_debug_measure_finish
  rw [if_neg hen, hclk]
  simp only [Option.some_bind, hbf, hbs, hn0]
  by_cases hb : fin.tv_nsec < sta.tv_nsec
  · have hneg : fin.tv_nsec - sta.tv_nsec < 0 := by omega
    have hd : wrap_long (fin.tv_sec - sta.tv_sec) = fin.tv_sec - sta.tv_sec :=
      wrap_long_of_range _ (by simp only [hb, if_true] at hov1; omega) hov2
    have hm1 : wrap_long (0 - 1) = -1 := by decide
    have hn1 : wrap_long (fin.tv_nsec - sta.tv_nsec + 1000000000)
        = fin.tv_nsec - sta.tv_nsec + 1000000000 :=
      wrap_long_of_range _ (by omega) (by omega)
    have hs2 : wrap_long (-1 + (fin.tv_sec - sta.tv_sec)) = -1 + (fin.tv_sec - sta.tv_sec) :=
      wrap_long_of_range _ (by simp only [hb, if_true] at hov1; omega) (by omega)
    refine ⟨-1 + (fin.tv_sec - sta.tv_sec), fin.tv_nsec - sta.tv_nsec + 1000000000, ?_, ?_, ?_, ?_, ?_⟩
    · simp only [hneg, if_true, hm1, hd, hn1, hs2]
    · omega
    · omega
    · ring
    · simp only [hb, if_true]; ring
  · have hneg : ¬ (fin.tv_nsec - sta.tv_nsec < 0) := by omega
    have hd : wrap_long (fin.tv_sec - sta.tv_sec) = fin.tv_sec - sta.tv_sec :=
      wrap_long_of_range _ (by simp only [hb, if_false] at hov1; omega) hov2
    have hs2 : wrap_long (0 + (fin.tv_sec - sta.tv_sec)) = 0 + (fin.tv_sec - sta.tv_sec) :=
      wrap_long_of_range _ (by simp only [hb, if_false] at hov1; omega) (by omega)
    refine ⟨0 + (fin.tv_sec - sta.tv_sec), fin.tv_nsec - sta.tv_nsec, ?_, ?_, ?_, ?_, ?_⟩
    · simp only [hneg, if_false, hd, hs2]
    · omega
    · omega
    · ring
    · simp only [hb, if_false]; ring

/-- C13 on the example state: from 5.9 s to 7.1 s one second is borrowed and
the line printed has `sec = 1` and `nsec = 200000000`. -/
theorem pocl_debug_measure_finish_elapsed_witness :
    exDebugOn.pocl_debug_messages ≠ 0 ∧
    exDebugOn.buf 61 = some { tv_sec := 0, tv_nsec := 0 } ∧
    exDebugOn.buf 60 = some { tv_sec := 5, tv_nsec := 900000000 } ∧
    (pocl_debug_measure_finish 60 61 "msg" "fn" 7 exDebugOn).map (fun s1 => s1.printed)
      = some [{ func := "fn", line := 7, sec := 1, nsec := 200000000, msg := "msg" }] := by
  have hen : exDebugOn.pocl_debug_messages ≠ 0 := by decide
  have hfinish : exDebugOn.buf 61 = some { tv_sec := 0, tv_nsec := 0 } := by decide
  have hstart : exDebugOn.buf 60 = some { tv_sec := 5, tv_nsec := 900000000 } := by decide
  obtain ⟨sec, nsec, hrun, _, _, hsum, hsec⟩ :=
    pocl_debug_measure_finish_elapsed exDebugOn 60 61 "msg" "fn" 7 _ _ hen hfinish hstart
      (by decide) (by decide) (by decide)
  refine ⟨hen, hfinish, hstart, ?_⟩
  have hsec1 : sec = 1 := by rw [hsec]; decide
  have hnsec : nsec = 200000000 := by
    rw [hsec1] at hsum
    have : (exDebugOn.clock exDebugOn.clock_reads) = { tv_sec := 7, tv_nsec := 100000000 } := rfl
    simp only [this] at hsum
    norm_num at hsum
    omega
  rw [hrun, hsec1, hnsec]
  rfl

/-! ## The directory utilities -/

/-- On the entry `.` the loop of `pocl_rm_rf` comes back to its condition
with the same entry, whatever the fuel. -/
theorem pocl_rm_rf_loop_dot (rm : FS → Path → Option (Int × FS)) (path : Path) (fuel : Nat)
    (fs : FS) (d : DIR) :
    pocl_rm_rf_loop rm path fuel fs 0 (some ['.']) d = none := by
  induction fuel with
  | zero => rfl
  | succ n ih => simp [pocl_rm_rf_loop, ih]

/-- On a directory `pocl_rm_rf` does not return, whatever the fuel: the
first entry read is `.`. -/
theorem pocl_rm_rf_of_dir (fs : FS) (path : Path) (h : FS.find fs path = some Node.dir)
    (fuel : Nat) : pocl_rm_rf fuel fs path = none := by
  cases fuel with
  | zero => rfl
  | succ n => simp [pocl_rm_rf, opendir, h, readdir, pocl_rm_rf_loop_dot]

/-- On a path that cannot be opened as a directory `pocl_rm_rf` returns -1
and leaves the file system as it was. -/
theorem pocl_rm_rf_of_not_dir (fs : FS) (path : Path) (h : opendir fs path = none)
    (fuel : Nat) : pocl_rm_rf (fuel + 1) fs path = some (-1, fs) := by
  simp [pocl_rm_rf, h]

/-- Past the entries `.` and `..`, the loop of `pocl_rm_rf` on the example
tree hands the regular file `/d/f` to the recursive call, as `stat` succeeds
on it; that call fails at `opendir`, and the loop ends with -1 and the file
still there. -/
theorem pocl_rm_rf_loop_regular_file :
    pocl_rm_rf_loop (fun f p => pocl_rm_rf 3 f p) "/d".toList 3 exTree 0 (some "f".toList)
        { entries := [] }
      = some (-1, exTree) := by
  decide

/-- C12 fails on the example tree: `pocl_rm_rf ("/d")`, with `/d` a
directory that holds one regular file, has not returned after any number of
steps, the loop staying on the entry `.`. -/
theorem pocl_rm_rf_never_returns (fuel : Nat) :
    pocl_rm_rf fuel exTree "/d".toList = none :=
  pocl_rm_rf_of_dir exTree "/d".toList (by decide) fuel

end Pocl
